import Mathlib

/-!
Verification of the bapple_player playback engine (`src/primitives.rs`,
`src/main.rs`) via a shallow embedding.

Bytes are modelled as `Nat`, byte buffers as `List Nat`, durations in
microseconds as `Nat` (the code stores `Duration::from_micros`), and the
floating-point audio-position arithmetic of `get_pos` over `ℚ` (the
positions involved are nonnegative, where `f64` rounding to nearest and
Mathlib's `round` agree on half-way cases: both round up).

The render loop (`Bapple::play`, lines 117-153) interacts with three
external sources of values: the shared sync counter written by the
fallback-clock thread, the audio position reported by the sink, and the
process-wide STOP flag.  These are modelled as oracles indexed by the
loop-iteration number, so theorems quantify over every possible
interleaving.  The loop itself is modelled with explicit fuel.
-/

/-- The `Metadata` record (primitives.rs lines 242-247): `frametime` in
microseconds and a deprecated `fps` field; `Default` gives both fields 0. -/
structure Metadata where
  frametime : Nat
  fps : Nat
deriving DecidableEq

/-- One archive entry, reduced to what `process_frames` inspects: the file
stem of its path and its byte content. -/
structure Entry where
  stem : String
  content : List Nat
deriving DecidableEq

/-- The mutable state threaded through `Bapple::new`'s `filter_map` closure:
`has_audio`, `audio` and the outer `frametime` accumulator (lines 43-45). -/
structure LoadState where
  has_audio : Bool
  audio : List Nat
  frametime : Nat
deriving DecidableEq

/-- `Bapple::process_frames` (lines 185-217) on one entry: an `audio` entry
stores the content and sets `has_audio`; a `metadata` entry RON-decodes the
content (`parse` stands for the external RON decoder), falling back to the
default record on failure, and updates the frametime accumulator
(`frametime` takes priority, else the deprecated `fps` converted as
`1_000_000 / fps`); any other entry becomes a frame payload. -/
def process_frames (parse : List Nat → Option Metadata) (e : Entry)
    (st : LoadState) : LoadState × Option (List Nat) :=
  if e.stem = "audio" then
    ({ st with has_audio := true, audio := e.content }, none)
  else if e.stem = "metadata" then
    let m := (parse e.content).getD ⟨0, 0⟩
    if m.frametime ≠ 0 then
      ({ st with frametime := m.frametime }, none)
    else if m.fps ≠ 0 then
      ({ st with frametime := 1000000 / m.fps }, none)
    else
      (st, none)
  else
    (st, some e.content)

/-- The `filter_map` + `collect` over the archive entries in `Bapple::new`
(lines 47-57): left-to-right, collecting the frame payloads in order. -/
def processEntries (parse : List Nat → Option Metadata) :
    List Entry → LoadState → LoadState × List (List Nat)
  | [], st => (st, [])
  | e :: es, st =>
    let p := process_frames parse e st
    let rest := processEntries parse es p.1
    (rest.1, match p.2 with
      | some f => f :: rest.2
      | none => rest.2)

/-- The `Bapple` struct (lines 24-31). -/
structure Bapple where
  compressed_frames : List (List Nat)
  audio : List Nat
  has_audio : Bool
  frametime : Nat
  counter : Nat
  length : Nat
deriving DecidableEq

/-- `Bapple::new` (lines 40-69) given the decoded archive entries: fold the
entries, then build the struct with `counter = 0` and
`length = compressed_frames.len()`.  With the entries in hand the body
cannot fail (per-entry IO errors are skipped by the closure via `.ok()?`),
so the `Res` result is always `Ok`. -/
def Bapple.new (parse : List Nat → Option Metadata) (entries : List Entry) :
    Except String Bapple :=
  let r := processEntries parse entries ⟨false, [], 0⟩
  .ok { compressed_frames := r.2, audio := r.1.audio, has_audio := r.1.has_audio,
        frametime := r.1.frametime, counter := 0, length := r.2.length }

/-- `Bapple::get_pos` (lines 160-163):
`(sink.get_pos().div_duration_f64(total) * self.length as f64).round() as usize`,
over ℚ; the final `as usize` cast saturates below at 0, which `Int.toNat`
matches on the nonnegative range arising here. -/
def get_pos (pos total : ℚ) (length : Nat) : Nat :=
  (round (pos / total * (length : Nat))).toNat

/-- `Bapple::set_frametime` (lines 166-168): `frametime as u64` truncates
toward zero and saturates below at 0, i.e. `⌊ft⌋` clamped to ℕ. -/
def Bapple.set_frametime (b : Bapple) (ft : ℚ) : Bapple :=
  { b with frametime := ⌊ft⌋.toNat }

/-- `validate_fps` (lines 234-240) on the already-parsed numeric value:
nonzero values below 0.01 are rejected, everything else is accepted. -/
def validate_fps (fps : ℚ) : Except String ℚ :=
  if fps ≠ 0 ∧ fps < 1 / 100 then .error "FPS value is too small."
  else .ok fps

/-- `main` lines 20-24: build the `Bapple`, then apply the CLI
frames-per-second override: a nonzero value replaces the frametime by
`1_000_000.0 / fps` microseconds. -/
def mainSetup (parse : List Nat → Option Metadata) (entries : List Entry)
    (cli : ℚ) : Except String Bapple :=
  match Bapple.new parse entries with
  | .error e => .error e
  | .ok b => .ok (if cli ≠ 0 then b.set_frametime (1000000 / cli) else b)

/-- Modelled from the spec: the Shared Sync Counter lives in the
`backup_counter` module, which is not among the given sources; per §3 it is
"reset to 0 at the start of each playback pass" and the Fallback Clock
advances it "starting from 0", so its initial value is 0. -/
def SYNC_COUNTER_INIT : Nat := 0

/-- External values the render loop can observe, indexed by the loop
iteration at which the observation happens: `syncAt i` is the value
`SYNC_COUNTER.load` would return at iteration `i`, `posAt i` the audio
position `sink.get_pos()` would report, `total` the fixed track duration,
and `stopAt i` the value of the `STOP` flag. -/
structure Oracle where
  syncAt : Nat → Nat
  posAt : Nat → ℚ
  total : ℚ
  stopAt : Nat → Bool

/-- Outcome of one iteration's advance step (lines 126-140): the new
counter, whether this iteration resynced (read a timing reference), and
whether the `STOP` flag was observed set (only possible on a resync). -/
structure IterResult where
  nextCounter : Nat
  resynced : Bool
  stopObserved : Bool
deriving DecidableEq

/-- The advance policy of one render-loop iteration (lines 126-140): if
`counter` is not a multiple of 15, increment it; otherwise resync from the
audio position (`get_pos`) when audio is present, else from the shared sync
counter (`backup_resync`, lines 170-172), and in either resync branch read
the `STOP` flag. -/
def playStep (hasAudio : Bool) (length : Nat) (o : Oracle) (i c : Nat) :
    IterResult :=
  if c % 15 ≠ 0 then ⟨c + 1, false, false⟩
  else if hasAudio then ⟨get_pos (o.posAt i) o.total length, true, o.stopAt i⟩
  else ⟨o.syncAt i, true, o.stopAt i⟩

/-- How one playback pass ended: `ok` is the normal fall-through past the
`while` loop, `stopped` is the `Err("Stopped")` return. -/
inductive PassResult
  | ok
  | stopped
deriving DecidableEq

/-- Observable outcome of a playback pass: the result, the final value of
`self.counter`, the value the pass left in the shared sync counter
(`some 0` after the normal-exit `store(0)`, `none` when the pass did not
write it), the number of display operations (decompress-and-write steps),
and the list of indices at which `compressed_frames` was accessed. -/
structure PassEnd where
  result : PassResult
  counter : Nat
  syncEnd : Option Nat
  displays : Nat
  accesses : List Nat
deriving DecidableEq

/-- The `while self.counter < self.length` render loop (lines 117-147) plus
the normal epilogue (lines 149-152), with explicit fuel; `i` is the current
iteration index, `c` the current counter.  Each iteration accesses
`compressed_frames[c]` and displays it, then advances by `playStep`; an
observed `STOP` returns `Err("Stopped")` with the counter already updated;
normal exit resets `counter` to 0 and stores 0 in the sync counter. -/
def runLoop (hasAudio : Bool) (length : Nat) (o : Oracle) :
    Nat → Nat → Nat → Option PassEnd
  | 0, _, _ => none
  | fuel + 1, i, c =>
    if c < length then
      let r := playStep hasAudio length o i c
      if r.stopObserved then
        some ⟨.stopped, r.nextCounter, none, 1, [c]⟩
      else
        (runLoop hasAudio length o fuel (i + 1) r.nextCounter).map
          fun e => { e with displays := e.displays + 1, accesses := c :: e.accesses }
    else
      some ⟨.ok, 0, some 0, 0, []⟩

/-- Outcome of `Bapple::play`: either the `exit(1)` taken when the
frametime is zero (lines 72-75), with the number of frames rendered before
the exit, or a completed pass. -/
inductive PlayOutcome
  | fatalExit (code : Nat) (displays : Nat)
  | passEnd (e : PassEnd)
deriving DecidableEq

/-- `Bapple::play` (lines 71-153): the zero-frametime check runs once on
entry, before anything is rendered; otherwise the render loop runs from the
current counter. -/
def Bapple.play (b : Bapple) (o : Oracle) (fuel : Nat) : Option PlayOutcome :=
  if b.frametime = 0 then some (.fatalExit 1 0)
  else (runLoop b.has_audio b.length o fuel 0 b.counter).map .passEnd

/-- The `loop { bapple.play()?; ... }` driver in `main` (lines 26-31):
`passState b oracles fuel p` is `some (counter, sync)` when the first `p`
passes all completed normally, giving the counter and shared-sync-counter
values at the start of pass `p`; an error pass propagates out (`none`). -/
def passState (b : Bapple) (oracles : Nat → Oracle) (fuel : Nat) :
    Nat → Option (Nat × Nat)
  | 0 => some (b.counter, SYNC_COUNTER_INIT)
  | p + 1 =>
    match passState b oracles fuel p with
    | none => none
    | some (c, s) =>
      match runLoop b.has_audio b.length (oracles p) fuel 0 c with
      | some e =>
        if e.result = .ok then some (e.counter, e.syncEnd.getD s) else none
      | none => none

/-! ## Shared concrete data for witnesses -/

/-- A drift-free oracle: the sync counter read at iteration `i` is `i + 1`
and the stop flag is never set. -/
def oracleSync : Oracle := ⟨fun i => i + 1, fun _ => 0, 1, fun _ => false⟩

/-- An oracle whose stop flag is always set. -/
def oracleStop : Oracle := ⟨fun i => i + 1, fun _ => 0, 1, fun _ => true⟩

/-- A 16-frame audio-less Bapple with frametime 100000 µs. -/
def bapple16 : Bapple :=
  ⟨List.replicate 16 [0], [], false, 100000, 0, 16⟩

/-! ## Claims -/

/-- C6: `validate_fps` accepts the input 0 (autodetect), rejects every
value strictly between 0 and 0.01 with the "too small" diagnostic, and
accepts every value at or above 0.01. -/
theorem validate_fps_cases :
    validate_fps 0 = .ok 0 ∧
    (∀ f : ℚ, 0 < f → f < 1 / 100 →
      validate_fps f = .error "FPS value is too small.") ∧
    (∀ f : ℚ, 1 / 100 ≤ f → validate_fps f = .ok f) := by
  refine ⟨by simp [validate_fps], fun f h1 h2 => ?_, fun f h => ?_⟩
  · exact if_pos ⟨h1.ne', h2⟩
  · exact if_neg fun ⟨_, hlt⟩ => absurd h (not_le.mpr hlt)

/-- Witness for C6 at the concrete inputs 0, 1/200 and 1. -/
theorem validate_fps_cases_witness :
    validate_fps 0 = .ok 0 ∧
    validate_fps (1 / 200) = .error "FPS value is too small." ∧
    validate_fps 1 = .ok 1 :=
  ⟨validate_fps_cases.1,
   validate_fps_cases.2.1 (1 / 200) (by norm_num) (by norm_num),
   validate_fps_cases.2.2 1 (by norm_num)⟩

/-- C10: constructing a `Bapple` from any entry list succeeds for every
metadata decoder, and a metadata entry whose content fails to parse is
silently replaced by the default record (frametime 0, fps 0), leaving the
load state — in particular the frametime — unchanged and contributing no
frame, rather than surfacing a decode error. -/
theorem metadata_parse_failure_silent :
    (∀ (parse : List Nat → Option Metadata) (entries : List Entry),
      ∃ b, Bapple.new parse entries = .ok b) ∧
    (∀ (parse : List Nat → Option Metadata) (c : List Nat) (st : LoadState),
      parse c = none →
      process_frames parse ⟨"metadata", c⟩ st = (st, none)) := by
  constructor
  · exact fun parse entries => ⟨_, rfl⟩
  · intro parse c st h
    simp [process_frames, h]

/-- Witness for C10: a decoder that always fails, on a concrete entry. -/
theorem metadata_parse_failure_silent_witness :
    (∃ b, Bapple.new (fun _ => none) [⟨"metadata", [3]⟩] = .ok b) ∧
    process_frames (fun _ => none) ⟨"metadata", [3]⟩ ⟨false, [], 0⟩ =
      (⟨false, [], 0⟩, none) :=
  ⟨metadata_parse_failure_silent.1 (fun _ => none) [⟨"metadata", [3]⟩],
   metadata_parse_failure_silent.2 (fun _ => none) [3] ⟨false, [], 0⟩ rfl⟩

/-- C7: if the resolved frametime is zero when a playback pass begins,
`play` exits the process with status 1 before rendering any frame; and when
the frametime is nonzero the fatal exit is impossible (the check happens
once on entry, not per frame). -/
theorem frametime_zero_fatal :
    (∀ (b : Bapple) (o : Oracle) (fuel : Nat), b.frametime = 0 →
      b.play o fuel = some (.fatalExit 1 0)) ∧
    (∀ (b : Bapple) (o : Oracle) (fuel : Nat) (out : PlayOutcome),
      b.frametime ≠ 0 → b.play o fuel = some out →
      ∃ e, out = .passEnd e) := by
  constructor
  · intro b o fuel h
    simp [Bapple.play, h]
  · intro b o fuel out h hout
    unfold Bapple.play at hout
    rw [if_neg h] at hout
    obtain ⟨e, -, he⟩ := Option.map_eq_some'.mp hout
    exact ⟨e, he.symm⟩

/-- Witness for C7: a zero-frametime Bapple exits fatally with nothing
rendered; a one-microsecond-frametime empty Bapple completes a pass. -/
theorem frametime_zero_fatal_witness :
    Bapple.play ⟨[], [], false, 0, 0, 0⟩ oracleSync 1 =
      some (.fatalExit 1 0) ∧
    ∃ e, (PlayOutcome.passEnd ⟨.ok, 0, some 0, 0, []⟩ : PlayOutcome) =
      .passEnd e :=
  ⟨frametime_zero_fatal.1 ⟨[], [], false, 0, 0, 0⟩ oracleSync 1 rfl,
   frametime_zero_fatal.2 ⟨[], [], false, 1, 0, 0⟩ oracleSync 1
     (.passEnd ⟨.ok, 0, some 0, 0, []⟩) (by decide) rfl⟩

/-- C2: at a resync (counter a multiple of 15) with audio active, the new
counter is exactly what `get_pos` computes, `get_pos` is exactly
round((position / total) * length), and for 0 ≤ position ≤ total with a
positive track duration this value lies within [0, length] (the lower
bound holds by the ℕ codomain, matching the saturating `as usize`). -/
theorem audio_resync_formula :
    (∀ (len : Nat) (o : Oracle) (i c : Nat), c % 15 = 0 →
      (playStep true len o i c).nextCounter = get_pos (o.posAt i) o.total len) ∧
    (∀ (pos total : ℚ) (len : Nat),
      get_pos pos total len = (round (pos / total * (len : ℚ))).toNat) ∧
    (∀ (pos total : ℚ) (len : Nat), 0 ≤ pos → pos ≤ total → 0 < total →
      get_pos pos total len ≤ len) := by
  refine ⟨fun len o i c h => by simp [playStep, h], fun pos total len => rfl,
    fun pos total len h0 hle hpos => ?_⟩
  have hdiv : pos / total ≤ 1 := (div_le_one hpos).mpr hle
  have hx : pos / total * (len : ℚ) ≤ (len : ℚ) := by
    have := mul_le_mul_of_nonneg_right hdiv (Nat.cast_nonneg (α := ℚ) len)
    simpa using this
  have hr : round (pos / total * (len : ℚ)) ≤ (len : ℤ) := by
    rw [round_eq]
    have h2 : pos / total * (len : ℚ) + 1 / 2 ≤ (len : ℚ) + 1 / 2 := by
      linarith
    calc ⌊pos / total * (len : ℚ) + 1 / 2⌋ ≤ ⌊(len : ℚ) + 1 / 2⌋ :=
          Int.floor_mono h2
      _ = (len : ℤ) := by
          rw [Int.floor_nat_add]
          norm_num
  unfold get_pos
  omega

/-- Witness for C2 at position 1/2 of a unit-length track over 16 frames:
the resync counter is round(8) = 8 and the bound 8 ≤ 16 holds. -/
theorem audio_resync_formula_witness :
    (playStep true 16 ⟨fun i => i + 1, fun _ => 1 / 2, 1, fun _ => false⟩ 0
        0).nextCounter =
      get_pos (1 / 2) 1 16 ∧
    get_pos (1 / 2) 1 16 = (round ((1 : ℚ) / 2 / 1 * (16 : ℚ))).toNat ∧
    get_pos (1 / 2) 1 16 ≤ 16 :=
  ⟨audio_resync_formula.1 16 ⟨fun i => i + 1, fun _ => 1 / 2, 1, fun _ => false⟩
      0 0 rfl,
   audio_resync_formula.2.1 (1 / 2) 1 16,
   audio_resync_formula.2.2 (1 / 2) 1 16 (by norm_num) (by norm_num)
     (by norm_num)⟩

/-- C3: on each loop iteration (counter below length) the frame is
displayed and then: a counter that is not a multiple of 15 is incremented
by 1; a counter that is a multiple of 15 (with the stop flag unset) is
recomputed from the audio position formula when audio is present and from
the shared sync counter otherwise. -/
theorem advance_policy :
    ∀ (hA : Bool) (len : Nat) (o : Oracle) (fuel i c : Nat), c < len →
    (c % 15 ≠ 0 →
      runLoop hA len o (fuel + 1) i c =
        (runLoop hA len o fuel (i + 1) (c + 1)).map
          fun e => { e with displays := e.displays + 1,
                            accesses := c :: e.accesses }) ∧
    (c % 15 = 0 → o.stopAt i = false →
      runLoop hA len o (fuel + 1) i c =
        (runLoop hA len o fuel (i + 1)
            (if hA then get_pos (o.posAt i) o.total len else o.syncAt i)).map
          fun e => { e with displays := e.displays + 1,
                            accesses := c :: e.accesses }) := by
  intro hA len o fuel i c hc
  constructor
  · intro h
    simp [runLoop, hc, playStep, h]
  · intro h hstop
    cases hA <;> simp [runLoop, hc, playStep, h, hstop]

/-- Witness for C3 on a 16-frame audio-less run: the increment case at
counter 1 and the resync case at counter 0. -/
theorem advance_policy_witness :
    runLoop false 16 oracleSync 2 1 1 =
      (runLoop false 16 oracleSync 1 2 2).map
        (fun e => { e with displays := e.displays + 1,
                           accesses := 1 :: e.accesses }) ∧
    runLoop false 16 oracleSync 2 0 0 =
      (runLoop false 16 oracleSync 1 1
          (if false then get_pos (oracleSync.posAt 0) oracleSync.total 16
           else oracleSync.syncAt 0)).map
        (fun e => { e with displays := e.displays + 1,
                           accesses := 0 :: e.accesses }) :=
  ⟨(advance_policy false 16 oracleSync 1 1 1 (by decide)).1 (by decide),
   (advance_policy false 16 oracleSync 1 0 0 (by decide)).2 rfl rfl⟩

/-- A drift-free audio-less run: if every sync-counter read at iteration
`i` returns `i + 1` (the fallback clock agrees with the render loop's own
pace) and the stop flag stays clear, the loop starting at iteration `c`
with counter `c` completes normally, displaying each remaining frame
exactly once. -/
theorem runLoop_driftFree (n : Nat) (o : Oracle)
    (hsync : ∀ i, o.syncAt i = i + 1) (hstop : ∀ i, o.stopAt i = false) :
    ∀ m c, c + m = n →
      runLoop false n o (m + 1) c c =
        some ⟨.ok, 0, some 0, m, List.range' c m⟩ := by
  intro m
  induction m with
  | zero =>
    intro c hc
    rw [runLoop, if_neg (by omega : ¬ c < n)]
    rfl
  | succ m ih =>
    intro c hc
    have hcn : c < n := by omega
    rw [runLoop, if_pos hcn]
    have h1 : (playStep false n o c c).stopObserved = false := by
      by_cases h : c % 15 = 0 <;> simp [playStep, h, hstop]
    have h2 : (playStep false n o c c).nextCounter = c + 1 := by
      by_cases h : c % 15 = 0 <;> simp [playStep, h, hsync]
    rw [if_neg (by simp [h1]), h2, ih (c + 1) (by omega)]
    rfl

/-- C1: for every frametime t > 0 and frame count n > 0, a playback pass
without audio under a drift-free fallback clock (each resync read returns
the counter the loop would have reached anyway) and an unset stop flag
completes normally with exactly n display operations, accessing frames
0..n-1 in order, and leaves the counter at 0. -/
theorem play_no_audio_exact :
    ∀ (b : Bapple) (o : Oracle) (t n : Nat), 0 < t → 0 < n →
      b.frametime = t → b.has_audio = false → b.length = n → b.counter = 0 →
      (∀ i, o.syncAt i = i + 1) → (∀ i, o.stopAt i = false) →
      b.play o (n + 1) =
        some (.passEnd ⟨.ok, 0, some 0, n, List.range' 0 n⟩) := by
  intro b o t n ht hn hf ha hl hc hsync hstop
  unfold Bapple.play
  rw [if_neg (by omega), ha, hl, hc,
    runLoop_driftFree n o hsync hstop n 0 (by omega)]
  rfl

/-- Witness for C1: the 16-frame audio-less Bapple under the drift-free
oracle displays exactly 16 frames and ends with counter 0. -/
theorem play_no_audio_exact_witness :
    bapple16.play oracleSync 17 =
      some (.passEnd ⟨.ok, 0, some 0, 16, List.range' 0 16⟩) :=
  play_no_audio_exact bapple16 oracleSync 100000 16 (by decide) (by decide)
    rfl rfl rfl rfl (fun i => rfl) (fun i => rfl)

/-- Once the stop flag is permanently set (from iteration `I` on), a run
already past `I` ends within at most one frame when the counter sits on a
multiple of 15, and within `16 - counter % 15` frames otherwise. -/
theorem runLoop_stop_bound_aux (hA : Bool) (len : Nat) (o : Oracle) (I : Nat)
    (hstop : ∀ j, I ≤ j → o.stopAt j = true) :
    ∀ fuel i c e, I ≤ i → runLoop hA len o fuel i c = some e →
      e.displays ≤ if c % 15 = 0 then 1 else 16 - c % 15 := by
  intro fuel
  induction fuel with
  | zero =>
    intro i c e _ h
    simp [runLoop] at h
  | succ fuel ih =>
    intro i c e hI h
    rw [runLoop] at h
    by_cases hc : c < len
    · rw [if_pos hc] at h
      by_cases h15 : c % 15 = 0
      · have hobs : (playStep hA len o i c).stopObserved = true := by
          cases hA <;> simp [playStep, h15, hstop i hI]
        rw [if_pos hobs] at h
        cases Option.some.inj h
        simp [h15]
      · have hobs : (playStep hA len o i c).stopObserved = false := by
          simp [playStep, h15]
        rw [if_neg (by simp [hobs])] at h
        obtain ⟨e1, he1, rfl⟩ := Option.map_eq_some'.mp h
        have hnext : (playStep hA len o i c).nextCounter = c + 1 := by
          simp [playStep, h15]
        rw [hnext] at he1
        have hb := ih (i + 1) (c + 1) e1 (by omega) he1
        simp only []
        split at hb <;> simp_all <;> omega
    · rw [if_neg hc] at h
      cases Option.some.inj h
      simp

/-- Bounded stop latency: once the stop flag is permanently set from
iteration `I` on, any completed run that started at iteration `i` performs
at most `(I - i) + 15` further display operations before returning. -/
theorem runLoop_stop_latency (hA : Bool) (len : Nat) (o : Oracle) (I : Nat)
    (hstop : ∀ j, I ≤ j → o.stopAt j = true) :
    ∀ fuel i c e, runLoop hA len o fuel i c = some e →
      e.displays ≤ (I - i) + 15 := by
  intro fuel
  induction fuel with
  | zero =>
    intro i c e h
    simp [runLoop] at h
  | succ fuel ih =>
    intro i c e h
    by_cases hI : I ≤ i
    · have hb := runLoop_stop_bound_aux hA len o I hstop (fuel + 1) i c e hI h
      split at hb <;> omega
    · rw [runLoop] at h
      by_cases hc : c < len
      · rw [if_pos hc] at h
        by_cases hobs : (playStep hA len o i c).stopObserved
        · rw [if_pos hobs] at h
          cases Option.some.inj h
          simp
        · rw [if_neg hobs] at h
          obtain ⟨e1, he1, rfl⟩ := Option.map_eq_some'.mp h
          have := ih (i + 1) _ e1 he1
          simp only []
          omega
      · rw [if_neg hc] at h
        cases Option.some.inj h
        simp

/-- C4: the cancellation flag is read only immediately after a resync — at
a counter that is not a multiple of 15 the step just increments, observing
nothing; a flag observed set at a resync makes the pass return the
Err("Stopped") result (never a silent Ok); and once the flag is set from
iteration I onward, a pass started at iteration 0 performs at most I + 15
display operations before returning. -/
theorem cancellation_resync_only_bounded :
    (∀ (hA : Bool) (len : Nat) (o : Oracle) (i c : Nat), c % 15 ≠ 0 →
      playStep hA len o i c = ⟨c + 1, false, false⟩) ∧
    (∀ (hA : Bool) (len : Nat) (o : Oracle) (fuel i c : Nat),
      c % 15 = 0 → c < len → o.stopAt i = true →
      runLoop hA len o (fuel + 1) i c =
        some ⟨.stopped, (playStep hA len o i c).nextCounter, none, 1, [c]⟩) ∧
    (∀ (hA : Bool) (len : Nat) (o : Oracle) (I : Nat),
      (∀ j, I ≤ j → o.stopAt j = true) →
      ∀ (fuel c : Nat) (e : PassEnd), runLoop hA len o fuel 0 c = some e →
        e.displays ≤ I + 15) := by
  refine ⟨fun hA len o i c h => by simp [playStep, h], ?_, ?_⟩
  · intro hA len o fuel i c h15 hc hstop
    have hobs : (playStep hA len o i c).stopObserved = true := by
      cases hA <;> simp [playStep, h15, hstop]
    rw [runLoop, if_pos hc, if_pos hobs]
  · intro hA len o I hstop fuel c e h
    have := runLoop_stop_latency hA len o I hstop fuel 0 c e h
    omega

/-- Witness for C4: under an always-set stop flag on the 16-frame
audio-less player, a non-multiple counter just increments, the resync at
counter 0 returns the stopped error immediately, and the latency bound
holds on the resulting one-frame pass. -/
theorem cancellation_resync_only_bounded_witness :
    playStep false 16 oracleStop 0 1 = ⟨2, false, false⟩ ∧
    runLoop false 16 oracleStop 1 0 0 =
      some ⟨.stopped, (playStep false 16 oracleStop 0 0).nextCounter, none,
        1, [0]⟩ ∧
    (⟨.stopped, 1, none, 1, [0]⟩ : PassEnd).displays ≤ 0 + 15 :=
  ⟨cancellation_resync_only_bounded.1 false 16 oracleStop 0 1 (by decide),
   cancellation_resync_only_bounded.2.1 false 16 oracleStop 0 0 0 rfl
     (by decide) rfl,
   cancellation_resync_only_bounded.2.2 false 16 oracleStop 0
     (fun j _ => rfl) 17 0 ⟨.stopped, 1, none, 1, [0]⟩ (by decide)⟩

/-- C9: for every oracle — including one whose resyncs set the counter to
arbitrary values at or beyond length — every access the render loop makes
to `compressed_frames` is at an index strictly below length, because the
access sits under the `counter < length` loop guard. -/
theorem accesses_in_bounds :
    ∀ (hA : Bool) (len : Nat) (o : Oracle) (fuel i c : Nat) (e : PassEnd),
      runLoop hA len o fuel i c = some e → ∀ a ∈ e.accesses, a < len := by
  intro hA len o fuel
  induction fuel with
  | zero =>
    intro i c e h
    simp [runLoop] at h
  | succ fuel ih =>
    intro i c e h
    rw [runLoop] at h
    by_cases hc : c < len
    · rw [if_pos hc] at h
      by_cases hobs : (playStep hA len o i c).stopObserved
      · rw [if_pos hobs] at h
        cases Option.some.inj h
        intro a ha
        simp at ha
        omega
      · rw [if_neg hobs] at h
        obtain ⟨e1, he1, rfl⟩ := Option.map_eq_some'.mp h
        intro a ha
        simp only [List.mem_cons] at ha
        rcases ha with rfl | ha
        · exact hc
        · exact ih (i + 1) _ e1 he1 a ha
    · rw [if_neg hc] at h
      cases Option.some.inj h
      intro a ha
      simp at ha

/-- Witness for C9: an oracle whose resync jumps the counter to 1000, far
beyond the 16-frame store; the only access of the resulting pass is index
0, in bounds. -/
theorem accesses_in_bounds_witness :
    0 ∈ (⟨.ok, 0, some 0, 1, [0]⟩ : PassEnd).accesses ∧ 0 < 16 :=
  ⟨by decide,
   accesses_in_bounds false 16 ⟨fun _ => 1000, fun _ => 0, 1, fun _ => false⟩
     2 0 0 ⟨.ok, 0, some 0, 1, [0]⟩ (by decide) 0 (by decide)⟩

/-- A normally completed pass always ends having reset the counter to 0
and stored 0 into the shared sync counter (lines 149-152). -/
theorem runLoop_ok_end (hA : Bool) (len : Nat) (o : Oracle) :
    ∀ (fuel i c : Nat) (e : PassEnd), runLoop hA len o fuel i c = some e →
      e.result = .ok → e.counter = 0 ∧ e.syncEnd = some 0 := by
  intro fuel
  induction fuel with
  | zero =>
    intro i c e h
    simp [runLoop] at h
  | succ fuel ih =>
    intro i c e h hres
    rw [runLoop] at h
    by_cases hc : c < len
    · rw [if_pos hc] at h
      by_cases hobs : (playStep hA len o i c).stopObserved
      · rw [if_pos hobs] at h
        cases Option.some.inj h
        cases hres
      · rw [if_neg hobs] at h
        obtain ⟨e1, he1, rfl⟩ := Option.map_eq_some'.mp h
        exact ih (i + 1) _ e1 he1 hres
    · rw [if_neg hc] at h
      cases Option.some.inj h
      exact ⟨rfl, rfl⟩

/-- C8: a normally completed pass ends with the counter reset to 0 and 0
stored into the shared sync counter, and — since a fresh Bapple starts
with counter 0 and the sync counter starts at 0 — every pass of the
looping driver (each preceded only by normal completions) begins with both
at 0. -/
theorem pass_counters_zero :
    (∀ (hA : Bool) (len : Nat) (o : Oracle) (fuel i c : Nat) (e : PassEnd),
      runLoop hA len o fuel i c = some e → e.result = .ok →
      e.counter = 0 ∧ e.syncEnd = some 0) ∧
    (∀ (parse : List Nat → Option Metadata) (entries : List Entry)
        (b : Bapple) (oracles : Nat → Oracle) (fuel : Nat),
      Bapple.new parse entries = .ok b →
      ∀ (p : Nat) (st : Nat × Nat),
        passState b oracles fuel p = some st → st = (0, 0)) := by
  refine ⟨runLoop_ok_end, ?_⟩
  intro parse entries b oracles fuel hb p
  have hc0 : b.counter = 0 := by
    have h2 := Except.ok.inj hb
    rw [← h2]
  induction p with
  | zero =>
    intro st h
    rw [passState, hc0] at h
    rw [SYNC_COUNTER_INIT] at h
    exact (Option.some.inj h).symm
  | succ p ih =>
    intro st h
    rw [passState] at h
    split at h
    · cases h
    · rename_i c s hps
      have hcs := ih (c, s) hps
      simp only [Prod.mk.injEq] at hcs
      obtain ⟨rfl, rfl⟩ := hcs
      split at h
      · rename_i e hrun
        by_cases hres : e.result = .ok
        · rw [if_pos hres] at h
          obtain ⟨h1, h2⟩ := runLoop_ok_end b.has_audio b.length (oracles p)
            fuel 0 0 e hrun hres
          rw [h1, h2] at h
          exact (Option.some.inj h).symm
        · rw [if_neg hres] at h
          cases h
      · cases h

/-- Witness for C8: the drift-free 16-frame run resets both counters, and
the state before passes 0, 1 and 2 of the driver on a freshly built
one-frame Bapple is (0, 0). -/
theorem pass_counters_zero_witness :
    ((⟨.ok, 0, some 0, 16, List.range' 0 16⟩ : PassEnd).counter = 0 ∧
      (⟨.ok, 0, some 0, 16, List.range' 0 16⟩ : PassEnd).syncEnd = some 0) ∧
    (⟨0, 0⟩ : Nat × Nat) = (0, 0) :=
  ⟨pass_counters_zero.1 false 16 oracleSync 17 0 0
      ⟨.ok, 0, some 0, 16, List.range' 0 16⟩
      (runLoop_driftFree 16 oracleSync (fun i => rfl) (fun i => rfl) 16 0 rfl)
      rfl,
   pass_counters_zero.2 (fun _ => some ⟨100, 0⟩) [⟨"f", [7]⟩, ⟨"metadata", [1]⟩]
      ⟨[[7]], [], false, 100, 0, 1⟩ (fun _ => oracleSync) 2 rfl 2 ⟨0, 0⟩
      (by decide)⟩

/-- C5: frametime resolution: a nonzero CLI frames-per-second value f
makes the effective frametime ⌊1000000 / f⌋ microseconds regardless of the
archive's metadata (in particular f = 10 gives 100000 µs); with no CLI
override, a single metadata entry sets the frametime to its nonzero
`frametime` field, else to 1000000 / fps when the deprecated `fps` field
is nonzero, else leaves it 0. -/
theorem frametime_resolution :
    (∀ (parse : List Nat → Option Metadata) (entries : List Entry)
        (cli : ℚ) (b : Bapple), cli ≠ 0 →
      mainSetup parse entries cli = .ok b →
      b.frametime = (⌊(1000000 : ℚ) / cli⌋).toNat) ∧
    (∀ (parse : List Nat → Option Metadata) (entries : List Entry)
        (b : Bapple),
      mainSetup parse entries 10 = .ok b → b.frametime = 100000) ∧
    (∀ (parse : List Nat → Option Metadata) (c : List Nat) (m : Metadata)
        (b : Bapple), parse c = some m →
      mainSetup parse [⟨"metadata", c⟩] 0 = .ok b →
      b.frametime =
        if m.frametime ≠ 0 then m.frametime
        else if m.fps ≠ 0 then 1000000 / m.fps
        else 0) := by
  have hcli : ∀ (parse : List Nat → Option Metadata) (entries : List Entry)
      (cli : ℚ) (b : Bapple), cli ≠ 0 →
      mainSetup parse entries cli = .ok b →
      b.frametime = (⌊(1000000 : ℚ) / cli⌋).toNat := by
    intro parse entries cli b hc hb
    simp only [mainSetup] at hb
    split at hb
    · cases hb
    · rw [if_pos hc] at hb
      rw [← Except.ok.inj hb]
      rfl
  refine ⟨hcli, ?_, ?_⟩
  · intro parse entries b hb
    rw [hcli parse entries 10 b (by norm_num) hb]
    norm_num
    rfl
  · intro parse c m b hm hb
    simp only [mainSetup, if_neg (by norm_num : ¬ (0 : ℚ) ≠ 0)] at hb
    rw [← Except.ok.inj hb]
    show (processEntries parse [⟨"metadata", c⟩] ⟨false, [], 0⟩).1.frametime = _
    by_cases h1 : m.frametime = 0 <;> by_cases h2 : m.fps = 0 <;>
      simp [processEntries, process_frames, hm, h1, h2]

/-- Witness for C5: a metadata frametime of 33333 is overridden by CLI fps
2 (giving 500000 µs) and by CLI fps 10 (giving 100000 µs), while with no
CLI override a metadata record with frametime 0 and fps 30 resolves to
1000000 / 30 µs. -/
theorem frametime_resolution_witness :
    (⟨[], [], false, (⌊(1000000 : ℚ) / 2⌋).toNat, 0, 0⟩ : Bapple).frametime =
      (⌊(1000000 : ℚ) / 2⌋).toNat ∧
    (⟨[], [], false, (⌊(1000000 : ℚ) / 10⌋).toNat, 0, 0⟩ : Bapple).frametime =
      100000 ∧
    (⟨[], [], false, 1000000 / 30, 0, 0⟩ : Bapple).frametime =
      (if (⟨0, 30⟩ : Metadata).frametime ≠ 0 then (⟨0, 30⟩ : Metadata).frametime
       else if (⟨0, 30⟩ : Metadata).fps ≠ 0 then
         1000000 / (⟨0, 30⟩ : Metadata).fps
       else 0) :=
  ⟨frametime_resolution.1 (fun _ => some ⟨33333, 0⟩) [⟨"metadata", [1]⟩] 2
      ⟨[], [], false, (⌊(1000000 : ℚ) / 2⌋).toNat, 0, 0⟩ (by norm_num) rfl,
   frametime_resolution.2.1 (fun _ => some ⟨33333, 0⟩) [⟨"metadata", [1]⟩]
      ⟨[], [], false, (⌊(1000000 : ℚ) / 10⌋).toNat, 0, 0⟩ rfl,
   frametime_resolution.2.2 (fun _ => some ⟨0, 30⟩) [1] ⟨0, 30⟩
      ⟨[], [], false, 1000000 / 30, 0, 0⟩ rfl rfl⟩
